import Mathlib

/-!
Verification development for the neural-order trading core: the Aster
order-signing pipeline (src/lib/aster-real-trading.ts), paper-mode balance
reconciliation (src/lib/balance-calculator.ts, src/app/api/agents/route.ts),
exit evaluation and exposure gating in the simulated decision engine
(src/unnamed/part_013), PnL formulas (src/unnamed/part_014), the trading
cron (src/unnamed/part_016), the AI decision adapters
(src/lib/gemini-service.ts, src/lib/openai-service.ts), live balance sync
(src/lib/aster-real-trading.ts), and the balance-snapshot store
(src/unnamed/part_005).

Money, prices and percentages are modelled with exact rationals; JavaScript
millisecond timestamps and nonces with integers.  JavaScript records are
modelled as association lists, and the relevant JavaScript value coercions
(truthiness, String(v), the "x or-else d" defaulting idiom) are embedded
explicitly.
-/

/-- JavaScript-style scalar values as they occur in the order-parameter
records passed to the Aster signing routine (src/lib/aster-real-trading.ts).
The fields of AsterOrderParams and the recvWindow/timestamp metadata are all
strings or numbers, so only the scalar forms are modelled; the source's
array/object branches of trimAndSortParams are not exercised by this data. -/
inductive JsonVal where
  | jnull
  | jundef
  | jstr (s : String)
  | jnum (n : Int)
  | jbool (b : Bool)
deriving DecidableEq

/-- JavaScript String(value) conversion for the scalar values above. -/
def jsToString : JsonVal → String
  | .jnull => "null"
  | .jundef => "undefined"
  | .jstr s => s
  | .jnum n => toString n
  | .jbool b => if b then "true" else "false"

/-- JavaScript truthiness for the scalar values above. -/
def jsTruthy : JsonVal → Bool
  | .jnull => false
  | .jundef => false
  | .jstr s => s != ""
  | .jnum n => n != 0
  | .jbool b => b

/-- Setting key k of a JavaScript object literal: if the key is present its
value is replaced in place, otherwise the pair is appended.  This is the
per-key effect of an object spread such as writing params first and then a
recvWindow entry, as done in generateAsterSignature and placeAsterOrder. -/
def setKey : List (String × JsonVal) → String → JsonVal → List (String × JsonVal)
  | [], k, v => [(k, v)]
  | (k0, v0) :: rest, k, v =>
    if k0 = k then (k0, v) :: rest else (k0, v0) :: setKey rest k v

/-- trimAndSortParams from src/lib/aster-real-trading.ts: drop null/undefined
entries and convert every remaining value to its string form.  (Despite its
name the source function does not itself sort; the ascending key order is
imposed when the object is serialized in generateAsterSignature.) -/
def trimAndSortParams (params : List (String × JsonVal)) : List (String × String) :=
  (params.filter (fun kv =>
    decide (kv.2 ≠ JsonVal.jnull ∧ kv.2 ≠ JsonVal.jundef))).map
    (fun kv => (kv.1, jsToString kv.2))

/-- Lexicographic less-or-equal on character lists by code point, the default
JavaScript Array.prototype.sort comparison on the ASCII keys used here. -/
def charListLe : List Char → List Char → Bool
  | [], _ => true
  | _ :: _, [] => false
  | a :: as, b :: bs =>
    if a.toNat < b.toNat then true
    else if b.toNat < a.toNat then false
    else charListLe as bs

/-- String comparison used for the ascending key sort. -/
def strLe (a b : String) : Bool := charListLe a.data b.data

/-- Insertion of a string into an ascending list. -/
def insertSorted (x : String) : List String → List String
  | [] => [x]
  | y :: ys => if strLe x y then x :: y :: ys else y :: insertSorted x ys

/-- The keys of the trimmed parameter object in ascending order. -/
def sortStrings : List String → List String
  | [] => []
  | x :: xs => insertSorted x (sortStrings xs)

/-- Minimal JSON string escaping (backslash and double quote; the characters
appearing in Aster order parameter keys and values need no further escapes). -/
def jsonEscape (s : String) : String :=
  String.mk (s.data.foldr (fun c acc =>
    if c = '\\' then '\\' :: '\\' :: acc
    else if c = '"' then '\\' :: '"' :: acc
    else c :: acc) [])

/-- Comma-join, as in the property list of a serialized JSON object. -/
def joinComma : List String → String
  | [] => ""
  | [x] => x
  | x :: xs => x ++ "," ++ joinComma xs

/-- The call JSON.stringify of trimmed with the sorted key array as property
list: a JSON object whose properties appear in ascending key order, every
value a JSON string. -/
def jsonStringifySorted (m : List (String × String)) : String :=
  let ks := sortStrings (m.map Prod.fst)
  let entries := ks.filterMap (fun k =>
    (List.lookup k m).map (fun v =>
      "\"" ++ jsonEscape k ++ "\":\"" ++ jsonEscape v ++ "\""))
  "\x7b" ++ joinComma entries ++ "\x7d"

/-- The source's .replace step removing every whitespace character from the
serialized JSON (it acts on the whole string, value characters included). -/
def removeWhitespace (s : String) : String :=
  String.mk (s.data.filter (fun c =>
    !(c == ' ' || c == '\t' || c == '\n' || c == '\r')))

/-- The source's .replace step rewriting every apostrophe (code 39) to a
double quote. -/
def replaceApos (s : String) : String :=
  String.mk (s.data.map (fun c => if c = Char.ofNat 39 then '"' else c))

/-- Agent wallet configuration (src/lib/aster-real-trading.ts). -/
structure AgentWalletConfig where
  user : String
  signer : String
  privateKey : String
deriving DecidableEq

/-- The data that generateAsterSignature feeds to the cryptographic stage:
the canonical JSON string together with the account address, signer address
and nonce.  The source ABI-encodes exactly this tuple with the fixed slot
types (string, address, address, uint256), hashes the encoding with
Keccak-256 and signs the hash with the signer key using the deterministic
(RFC 6979) personal-sign scheme of ethers.  The signature string is
therefore a function of this payload and the private key: equal payloads
with equal keys always yield equal signature strings. -/
structure SigningPayload where
  json : String
  user : String
  signer : String
  nonce : Int
deriving DecidableEq

/-- Step 1 of generateAsterSignature: merge the caller's parameters with the
freshness window (recvWindow fixed at 50000) and the millisecond timestamp
read from the clock at signing time (Date.now() truncated). -/
def paramsWithMeta (params : List (String × JsonVal)) (nowMs : Int) :
    List (String × JsonVal) :=
  setKey (setKey params "recvWindow" (.jnum 50000)) "timestamp" (.jnum nowMs)

/-- generateAsterSignature from src/lib/aster-real-trading.ts, embedded up to
its deterministic cryptographic tail: merge the metadata, trim and stringify
the parameters, serialize them with sorted keys, strip whitespace and
apostrophes, and assemble the tuple that is ABI-encoded, hashed and signed.
The clock reading made inside the routine is the explicit nowMs argument. -/
def generateAsterSignaturePayload (params : List (String × JsonVal))
    (w : AgentWalletConfig) (nonce : Int) (nowMs : Int) : SigningPayload :=
  let trimmed := trimAndSortParams (paramsWithMeta params nowMs)
  let jsonStr := replaceApos (removeWhitespace (jsonStringifySorted trimmed))
  { json := jsonStr, user := w.user, signer := w.signer, nonce := nonce }

/-- Concrete canonicalization check: the signed JSON has sorted keys, the
constant freshness window, the merged timestamp, and no whitespace. -/
theorem generateAsterSignaturePayload_concrete :
    (generateAsterSignaturePayload [("symbol", .jstr "BTCUSDT")]
      ⟨"0xU", "0xS", "0xK"⟩ 7 1000).json
      = "\x7b\"recvWindow\":\"50000\",\"symbol\":\"BTCUSDT\",\"timestamp\":\"1000\"\x7d" := by
  decide

/-- Setting the same key twice keeps only the later value. -/
theorem setKey_setKey_same (p : List (String × JsonVal)) (k : String) (v w : JsonVal) :
    setKey (setKey p k v) k w = setKey p k w := by
  induction p with
  | nil => simp [setKey]
  | cons hd tl ih =>
    obtain ⟨k0, v0⟩ := hd
    by_cases h : k0 = k <;> simp [setKey, h, ih]

/-- The value written by an earlier setKey at key k is irrelevant once a
later setKey writes k again, even with an unrelated setKey in between. -/
theorem setKey_override_irrel (p : List (String × JsonVal)) (k q : String)
    (v₁ v₂ c w : JsonVal) :
    setKey (setKey (setKey p k v₁) q c) k w
      = setKey (setKey (setKey p k v₂) q c) k w := by
  induction p with
  | nil =>
    by_cases h : k = q <;> simp [setKey, h]
  | cons hd tl ih =>
    obtain ⟨k0, v0⟩ := hd
    by_cases h : k0 = k
    · subst h
      by_cases hq : k0 = q <;> simp [setKey, hq]
    · by_cases hq : k0 = q
      · subst hq
        simp [setKey, h, setKey_setKey_same]
      · simp [setKey, h, hq, ih]

/-- The leverage coercion at the top of placeAsterOrder
(src/lib/aster-real-trading.ts): a truthy leverage value is converted to its
string form, otherwise the key is set to undefined (and the entry is later
dropped both by canonicalization and by the request-body cleanup). -/
def paramsForSign (orderParams : List (String × JsonVal)) : List (String × JsonVal) :=
  setKey orderParams "leverage"
    (match List.lookup "leverage" orderParams with
     | some v => if jsTruthy v then .jstr (jsToString v) else .jundef
     | none => .jundef)

/-- The canonical parameter set over which placeAsterOrder's signature is
computed: the trimmed, stringified paramsForSign merged with recvWindow and
the Date.now() reading tSign made inside generateAsterSignature. -/
def placeAsterOrderSignedParams (orderParams : List (String × JsonVal))
    (tSign : Int) : List (String × String) :=
  trimAndSortParams (paramsWithMeta (paramsForSign orderParams) tSign)

/-- The authenticated request body built by placeAsterOrder after signing:
the raw paramsForSign spread together with nonce, user, signer, the
signature string, recvWindow, and a timestamp from a second Date.now()
reading tBody; undefined entries deleted; every value stringified into the
URL-encoded form body. -/
def placeAsterOrderBody (orderParams : List (String × JsonVal))
    (w : AgentWalletConfig) (nonce : Int) (tBody : Int) (signature : String) :
    List (String × String) :=
  let rb :=
    setKey (setKey (setKey (setKey (setKey (setKey (paramsForSign orderParams)
      "nonce" (.jstr (toString nonce)))
      "user" (.jstr w.user))
      "signer" (.jstr w.signer))
      "signature" (.jstr signature))
      "recvWindow" (.jnum 50000))
      "timestamp" (.jnum tBody)
  (rb.filter (fun kv => decide (kv.2 ≠ JsonVal.jundef))).map
    (fun kv => (kv.1, jsToString kv.2))

/-- C1 counterexample: the claim fails on the code in both conjuncts.
Changing the single parameter recvWindow from 1 to 2 leaves the signing
payload, and hence the signature, unchanged (the routine overwrites
recvWindow with 50000 before signing); and two invocations with identical
(parameters, nonce, keys) at clock readings one millisecond apart sign
different payloads, because generateAsterSignature merges its own Date.now()
reading into the parameters. -/
theorem generateAsterSignature_not_parameter_sensitive :
    ([("recvWindow", JsonVal.jnum 1), ("symbol", JsonVal.jstr "BTCUSDT")]
        : List (String × JsonVal))
      ≠ [("recvWindow", JsonVal.jnum 2), ("symbol", JsonVal.jstr "BTCUSDT")]
    ∧ generateAsterSignaturePayload
        [("recvWindow", JsonVal.jnum 1), ("symbol", JsonVal.jstr "BTCUSDT")]
        ⟨"0xU", "0xS", "0xK"⟩ 7 1000
      = generateAsterSignaturePayload
        [("recvWindow", JsonVal.jnum 2), ("symbol", JsonVal.jstr "BTCUSDT")]
        ⟨"0xU", "0xS", "0xK"⟩ 7 1000
    ∧ generateAsterSignaturePayload [("symbol", JsonVal.jstr "BTCUSDT")]
        ⟨"0xU", "0xS", "0xK"⟩ 7 1000
      ≠ generateAsterSignaturePayload [("symbol", JsonVal.jstr "BTCUSDT")]
        ⟨"0xU", "0xS", "0xK"⟩ 7 1001 :=
  ⟨by decide, by decide, by decide⟩

/-- C1 (amended): the signing routine is deterministic given (parameters,
nonce, keys) and the millisecond clock reading made inside it: the signed
payload depends on the parameters only through their canonical trimmed form
after the recvWindow and timestamp keys are overwritten, so two invocations
whose canonicalized parameter sets agree (for the same wallet, nonce and
clock reading) sign the identical payload and hence produce the identical
signature; in particular changing the value of the recvWindow or timestamp
parameter never changes the signature. -/
theorem generateAsterSignature_deterministic_given_clock :
    (∀ (p₁ p₂ : List (String × JsonVal)) (w : AgentWalletConfig) (nonce nowMs : Int),
      trimAndSortParams (paramsWithMeta p₁ nowMs)
          = trimAndSortParams (paramsWithMeta p₂ nowMs) →
      generateAsterSignaturePayload p₁ w nonce nowMs
          = generateAsterSignaturePayload p₂ w nonce nowMs)
    ∧ (∀ (p : List (String × JsonVal)) (w : AgentWalletConfig) (nonce nowMs : Int)
        (v₁ v₂ : JsonVal),
      generateAsterSignaturePayload (setKey p "recvWindow" v₁) w nonce nowMs
          = generateAsterSignaturePayload (setKey p "recvWindow" v₂) w nonce nowMs)
    ∧ (∀ (p : List (String × JsonVal)) (w : AgentWalletConfig) (nonce nowMs : Int)
        (v₁ v₂ : JsonVal),
      generateAsterSignaturePayload (setKey p "timestamp" v₁) w nonce nowMs
          = generateAsterSignaturePayload (setKey p "timestamp" v₂) w nonce nowMs) := by
  refine ⟨?_, ?_, ?_⟩
  · intro p₁ p₂ w nonce nowMs h
    simp only [generateAsterSignaturePayload, h]
  · intro p w nonce nowMs v₁ v₂
    simp only [generateAsterSignaturePayload, paramsWithMeta, setKey_setKey_same]
  · intro p w nonce nowMs v₁ v₂
    simp only [generateAsterSignaturePayload, paramsWithMeta]
    rw [setKey_override_irrel p "timestamp" "recvWindow" v₁ v₂]

/-- Witness for the amended C1 theorem: two parameter maps that canonicalize
identically (a number 5 and the string "5") sign the identical payload. -/
theorem generateAsterSignature_deterministic_given_clock_witness :
    trimAndSortParams (paramsWithMeta [("a", JsonVal.jnum 5)] 1000)
      = trimAndSortParams (paramsWithMeta [("a", JsonVal.jstr "5")] 1000)
    ∧ generateAsterSignaturePayload [("a", JsonVal.jnum 5)]
        ⟨"0xU", "0xS", "0xK"⟩ 7 1000
      = generateAsterSignaturePayload [("a", JsonVal.jstr "5")]
        ⟨"0xU", "0xS", "0xK"⟩ 7 1000 :=
  ⟨by decide,
   generateAsterSignature_deterministic_given_clock.1
     [("a", JsonVal.jnum 5)] [("a", JsonVal.jstr "5")]
     ⟨"0xU", "0xS", "0xK"⟩ 7 1000 (by decide)⟩

/-- C5: at the failing input the authenticated request does not carry the
timestamp the signature was computed over.  placeAsterOrder reads the clock
once inside generateAsterSignature (here 1000, the timestamp merged into the
canonical signed parameters) and a second time when assembling the request
body (here 1001); whenever the two readings differ the submitted timestamp
is not the signed one. -/
theorem placeAsterOrder_timestamp_resampled :
    List.lookup "timestamp"
        (placeAsterOrderSignedParams
          [("symbol", JsonVal.jstr "BTCUSDT"), ("side", JsonVal.jstr "BUY"),
           ("type", JsonVal.jstr "MARKET"), ("quantity", JsonVal.jstr "0.001")]
          1000)
      = some "1000"
    ∧ List.lookup "timestamp"
        (placeAsterOrderBody
          [("symbol", JsonVal.jstr "BTCUSDT"), ("side", JsonVal.jstr "BUY"),
           ("type", JsonVal.jstr "MARKET"), ("quantity", JsonVal.jstr "0.001")]
          ⟨"0xU", "0xS", "0xK"⟩ 1 1001 "0xsig")
      = some "1001"
    ∧ ("1001" : String) ≠ "1000" :=
  ⟨by decide, by decide, by decide⟩

/-- Position direction. -/
inductive Direction where
  | long
  | short
deriving DecidableEq

/-- The fields of the Position model (src/models/Position.ts) used by the
balance calculator, the agents route and the trading engine. -/
structure Position where
  coin : String
  signal : Direction
  entry_price : ℚ
  profit_target : ℚ
  stop_loss : ℚ
  leverage : ℚ
  size_usd : ℚ
deriving DecidableEq

/-- The fields of the Trade model (src/models/Trade.ts) used by the balance
calculator.  pnlAbsolute is optional so that documents missing the field,
which the source guards with the or-zero idiom, can be represented. -/
structure TradeRow where
  agentId : String
  tradeType : String
  pnl : ℚ
  pnlAbsolute : Option ℚ
deriving DecidableEq

/-- The JavaScript idiom of value or-else default on an optional number:
null, undefined and 0 are falsy and give the default. -/
def jsNumOr (v : Option ℚ) (d : ℚ) : ℚ :=
  match v with
  | none => d
  | some x => if x = 0 then d else x

/-- Price lookup as in the sources' currentPrices accesses: a missing entry
and a zero price are treated the same way, through JavaScript falsiness
(each caller tests the looked-up price with a bang before using it). -/
def priceOf (prices : List (String × ℚ)) (coin : String) : Option ℚ :=
  match List.lookup coin prices with
  | none => none
  | some p => if p = 0 then none else some p

/-- INITIAL_BALANCE from src/lib/balance-calculator.ts. -/
def INITIAL_BALANCE : ℚ := 1000

/-- getRealizedPnL from src/lib/balance-calculator.ts: the Trade query
filtered on the agent id and the exit trade type, reduced by summing
pnlAbsolute or-zero. -/
def getRealizedPnL (agentId : String) (trades : List TradeRow) : ℚ :=
  (trades.filter (fun t =>
    decide (t.agentId = agentId ∧ t.tradeType = "exit"))).foldl
    (fun sum t => sum + jsNumOr t.pnlAbsolute 0) 0

/-- calculateUnrealizedPnL from src/lib/balance-calculator.ts: the loop over
open positions accumulating the signed price-change percentage applied to
the notional size, skipping positions without a usable price. -/
def calculateUnrealizedPnL (activePositions : List Position)
    (currentPrices : List (String × ℚ)) : ℚ :=
  activePositions.foldl (fun total position =>
    match priceOf currentPrices position.coin with
    | none => total
    | some currentPrice =>
      let priceChange :=
        (currentPrice - position.entry_price) / position.entry_price * 100
      let pnlPercent := match position.signal with
        | .long => priceChange
        | .short => -priceChange
      total + pnlPercent / 100 * position.size_usd) 0

/-- The fields of the Agent model used by the balance calculator. -/
structure Agent where
  id : String
  balance : ℚ
  activePositions : List Position
deriving DecidableEq

/-- calculateAgentBalance from src/lib/balance-calculator.ts: initial
balance plus realized PnL from exit trades plus unrealized PnL from open
positions. -/
def calculateAgentBalance (agent : Agent) (trades : List TradeRow)
    (currentPrices : List (String × ℚ)) : ℚ :=
  INITIAL_BALANCE + getRealizedPnL agent.id trades
    + calculateUnrealizedPnL agent.activePositions currentPrices

/-- The per-position value accumulated by calculateUnrealizedPnL (and, with
the same formula, computed per position by enrichPosition in
src/app/api/agents/route.ts). -/
def positionUnrealizedPnL (prices : List (String × ℚ)) (position : Position) : ℚ :=
  match priceOf prices position.coin with
  | none => 0
  | some currentPrice =>
    let priceChange :=
      (currentPrice - position.entry_price) / position.entry_price * 100
    let pnlPercent := match position.signal with
      | .long => priceChange
      | .short => -priceChange
    pnlPercent / 100 * position.size_usd

/-- A left fold that adds an image of each element equals the initial value
plus the sum of the images. -/
theorem foldl_add_eq_sum {α : Type} (f : α → ℚ) :
    ∀ (l : List α) (a : ℚ), l.foldl (fun s x => s + f x) a = a + (l.map f).sum := by
  intro l
  induction l with
  | nil => intro a; simp
  | cons x xs ih => intro a; simp [List.foldl_cons, ih, add_assoc]

/-- calculateUnrealizedPnL is the sum of the per-position values. -/
theorem calculateUnrealizedPnL_eq_sum (activePositions : List Position)
    (prices : List (String × ℚ)) :
    calculateUnrealizedPnL activePositions prices
      = (activePositions.map (positionUnrealizedPnL prices)).sum := by
  have step : ∀ (l : List Position) (a : ℚ),
      l.foldl (fun total position =>
        match priceOf prices position.coin with
        | none => total
        | some currentPrice =>
          let priceChange :=
            (currentPrice - position.entry_price) / position.entry_price * 100
          let pnlPercent := match position.signal with
            | .long => priceChange
            | .short => -priceChange
          total + pnlPercent / 100 * position.size_usd) a
      = a + (l.map (positionUnrealizedPnL prices)).sum := by
    intro l
    induction l with
    | nil => intro a; simp
    | cons p ps ih =>
      intro a
      have hbody : (match priceOf prices p.coin with
          | none => a
          | some currentPrice =>
            let priceChange :=
              (currentPrice - p.entry_price) / p.entry_price * 100
            let pnlPercent := match p.signal with
              | .long => priceChange
              | .short => -priceChange
            a + pnlPercent / 100 * p.size_usd)
          = a + positionUnrealizedPnL prices p := by
        unfold positionUnrealizedPnL
        cases priceOf prices p.coin with
        | none => simp
        | some c => simp
      simp only [List.foldl_cons, List.map_cons, List.sum_cons, hbody, ih]
      ring
  unfold calculateUnrealizedPnL
  rw [step activePositions 0, zero_add]

/-- C2: paper-mode balance reconciliation.  calculateAgentBalance returns
exactly the initial balance 1000 plus the sum of pnlAbsolute (or-zero) over
the agent's exit Trades plus the sum of per-position unrealized PnL over its
open positions, and re-running it on the same inputs returns the same
balance. -/
theorem calculateAgentBalance_paper_formula (agent : Agent)
    (trades : List TradeRow) (prices : List (String × ℚ)) :
    calculateAgentBalance agent trades prices
      = 1000
        + ((trades.filter (fun t =>
              decide (t.agentId = agent.id ∧ t.tradeType = "exit"))).map
            (fun t => jsNumOr t.pnlAbsolute 0)).sum
        + (agent.activePositions.map (positionUnrealizedPnL prices)).sum
    ∧ calculateAgentBalance agent trades prices
        = calculateAgentBalance agent trades prices := by
  constructor
  · unfold calculateAgentBalance getRealizedPnL INITIAL_BALANCE
    rw [calculateUnrealizedPnL_eq_sum, foldl_add_eq_sum]
    ring
  · rfl

/-- calculatePnL from src/unnamed/part_014: realized PnL percentage of a
closed trade, oriented by side. -/
def calculatePnL (side : Direction) (entryPrice exitPrice : ℚ) : ℚ :=
  match side with
  | .long => (exitPrice - entryPrice) / entryPrice * 100
  | .short => (entryPrice - exitPrice) / entryPrice * 100

/-- The PnL fields computed by enrichPosition in
src/app/api/agents/route.ts. -/
structure EnrichedPnL where
  current_price : ℚ
  price_change : ℚ
  pnl : ℚ
  pnlAbsolute : ℚ
deriving DecidableEq

/-- enrichPosition from src/app/api/agents/route.ts: without a usable market
price the entry price is echoed and all PnL fields are zero; otherwise the
price-change percentage is signed by direction and the absolute PnL is taken
on the full notional size (the source's size_usd or-zero guard is the
identity here, size_usd always being present on the model). -/
def enrichPosition (position : Position) (marketPrices : List (String × ℚ)) :
    EnrichedPnL :=
  match priceOf marketPrices position.coin with
  | none =>
    { current_price := position.entry_price, price_change := 0,
      pnl := 0, pnlAbsolute := 0 }
  | some currentPrice =>
    let priceChange :=
      (currentPrice - position.entry_price) / position.entry_price * 100
    let pnlPercent := match position.signal with
      | .long => priceChange
      | .short => -priceChange
    { current_price := currentPrice, price_change := priceChange,
      pnl := pnlPercent, pnlAbsolute := pnlPercent / 100 * position.size_usd }

/-- C6: realized and unrealized PnL formulas.  For entry price e above zero
and any exit price x, calculatePnL gives (x-e)/e*100 for a long and
(e-x)/e*100 for a short (the short value being the negation of the long
one); the enriched unrealized PnL of a position priced at c equals the same
directional formula, with the absolute PnL equal to percentage/100 times the
notional size; a long entered at 100 and closed at 110 yields +10 percent
(+50 on a 500 notional) and a short entered at 100 and closed at 110 yields
-10 percent (-50 on a 500 notional). -/
theorem calculatePnL_formulas (e x c : ℚ) (_he : 0 < e) (pos : Position)
    (prices : List (String × ℚ)) (hc : priceOf prices pos.coin = some c) :
    calculatePnL .long e x = (x - e) / e * 100
    ∧ calculatePnL .short e x = (e - x) / e * 100
    ∧ calculatePnL .short e x = -(calculatePnL .long e x)
    ∧ (enrichPosition pos prices).pnl
        = calculatePnL pos.signal pos.entry_price c
    ∧ (enrichPosition pos prices).pnlAbsolute
        = (enrichPosition pos prices).pnl / 100 * pos.size_usd
    ∧ calculatePnL .long 100 110 = 10
    ∧ calculatePnL .short 100 110 = -10
    ∧ calculatePnL .long 100 110 / 100 * 500 = 50
    ∧ calculatePnL .short 100 110 / 100 * 500 = -50 := by
  refine ⟨rfl, rfl, by unfold calculatePnL; ring, ?_, ?_, by norm_num [calculatePnL],
    by norm_num [calculatePnL], by norm_num [calculatePnL], by norm_num [calculatePnL]⟩
  · unfold enrichPosition calculatePnL
    rw [hc]
    cases h : pos.signal <;> simp [h]
    ring
  · unfold enrichPosition
    rw [hc]

/-- Witness for C6 at a concrete long position entered at 100 with notional
500, currently priced at 110. -/
theorem calculatePnL_formulas_witness :
    (0 : ℚ) < 100
    ∧ priceOf [("BTC", 110)]
        (Position.mk "BTC" .long 100 120 95 10 500).coin = some 110
    ∧ (calculatePnL .long 100 110 = (110 - 100) / 100 * 100
      ∧ calculatePnL .short 100 110 = (100 - 110) / 100 * 100
      ∧ calculatePnL .short 100 110 = -(calculatePnL .long 100 110)
      ∧ (enrichPosition (Position.mk "BTC" .long 100 120 95 10 500)
            [("BTC", 110)]).pnl
          = calculatePnL (Position.mk "BTC" .long 100 120 95 10 500).signal
              (Position.mk "BTC" .long 100 120 95 10 500).entry_price 110
      ∧ (enrichPosition (Position.mk "BTC" .long 100 120 95 10 500)
            [("BTC", 110)]).pnlAbsolute
          = (enrichPosition (Position.mk "BTC" .long 100 120 95 10 500)
              [("BTC", 110)]).pnl / 100
              * (Position.mk "BTC" .long 100 120 95 10 500).size_usd
      ∧ calculatePnL .long 100 110 = 10
      ∧ calculatePnL .short 100 110 = -10
      ∧ calculatePnL .long 100 110 / 100 * 500 = 50
      ∧ calculatePnL .short 100 110 / 100 * 500 = -50) :=
  ⟨by norm_num, by decide,
   calculatePnL_formulas 100 110 110 (by norm_num)
     (Position.mk "BTC" .long 100 120 95 10 500) [("BTC", 110)] (by decide)⟩

/-- The outcome of the exit check in generateAgentDecision, as described by
the spec's evaluateExit contract. -/
inductive ExitSignal where
  | noExit
  | stop_loss
  | take_profit
deriving DecidableEq

/-- The exit condition evaluated for each open position in
generateAgentDecision (src/unnamed/part_013, lines 142-170): the position is
closed when the current price is at or below the stored stop loss, or at or
above the stored profit target, with the reported reason chosen by the same
comparison.  The position's direction is not consulted. -/
def evaluateExitCode (position : Position) (currentPrice : ℚ) : ExitSignal :=
  if currentPrice ≤ position.stop_loss then .stop_loss
  else if currentPrice ≥ position.profit_target then .take_profit
  else .noExit

/-- Modelled from the spec: evaluateExit as described in section 4.2 of the
specification, the comparison oriented by direction (long: stop below entry,
target above; short: inverted, the stop above entry triggering when price
rises to it and the target below entry triggering when price falls to it).
It is named with a Spec suffix because the repository's code does not orient
the comparison. -/
def evaluateExitSpec (position : Position) (currentPrice : ℚ) : ExitSignal :=
  match position.signal with
  | .long =>
    if currentPrice ≤ position.stop_loss then .stop_loss
    else if currentPrice ≥ position.profit_target then .take_profit
    else .noExit
  | .short =>
    if currentPrice ≥ position.stop_loss then .stop_loss
    else if currentPrice ≤ position.profit_target then .take_profit
    else .noExit

/-- C3: the exit evaluation in generateAgentDecision applies the long
orientation to both directions.  At the failing input, a short position
entered at 100 with its stop loss at 105 (above entry, as the same function
places short stops) and its profit target at 95, evaluated at the unchanged
price 100, the code signals a stop-loss exit because 100 is at or below 105,
while the direction-oriented evaluation of the claim signals no exit (the
price has neither risen to the stop nor fallen to the target).  For long
positions the two agree by definition. -/
theorem evaluateExit_short_not_inverted :
    evaluateExitCode (Position.mk "BTC" .short 100 95 105 10 500) 100
      = ExitSignal.stop_loss
    ∧ evaluateExitSpec (Position.mk "BTC" .short 100 95 105 10 500) 100
      = ExitSignal.noExit
    ∧ ExitSignal.stop_loss ≠ ExitSignal.noExit :=
  ⟨by decide, by decide, by decide⟩

/-- The decision signals appearing in the trade_signal_args objects produced
by generateAgentDecision (src/unnamed/part_013). -/
inductive TradeSignal where
  | long
  | short
  | close
  | hold
  | wait
deriving DecidableEq

/-- The trade_signal_args record produced by generateAgentDecision.  The
free-text fields (justification, invalidation_condition) are not modelled;
fields absent from a given decision object are none. -/
structure DecisionArgs where
  coin : String
  signal : TradeSignal
  quantity : Option ℚ := none
  entry_price : Option ℚ := none
  profit_target : Option ℚ := none
  stop_loss : Option ℚ := none
  leverage : Option ℚ := none
  confidence : Option ℚ := none
  risk_usd : Option ℚ := none
  size_usd : Option ℚ := none
  expected_duration : Option String := none
deriving DecidableEq

/-- Market data handed to generateAgentDecision (getMarketData in
src/unnamed/part_013): a price map and a volatility map. -/
structure MarketData where
  prices : List (String × ℚ)
  volatility : List (String × ℚ)

/-- The first loop of generateAgentDecision: for every open position with a
usable price, a close decision when the exit condition fires (the current
price recorded in the entry_price slot, mirroring the source object) and a
hold decision otherwise; positions without a usable price produce no
decision. -/
def genExitDecisions (activePositions : List Position)
    (prices : List (String × ℚ)) : List (String × DecisionArgs) :=
  activePositions.filterMap (fun position =>
    match priceOf prices position.coin with
    | none => none
    | some currentPrice =>
      if evaluateExitCode position currentPrice = ExitSignal.noExit then
        some (position.coin, { coin := position.coin, signal := .hold })
      else
        some (position.coin,
          { coin := position.coin, signal := .close,
            entry_price := some currentPrice }))

/-- LEVERAGE_OPTIONS from src/unnamed/part_013. -/
def LEVERAGE_OPTIONS : List ℚ := [5, 8, 10, 12, 15, 20]

/-- The entry-generation loop of generateAgentDecision, with the stream of
Math.random() draws made explicit (each call consumes the next draw, in
source order; the JavaScript short-circuit that skips the second draw when
confidence is not above 0.6 is preserved).  Coins with an active position or
without a usable price produce no decision and consume no draws.  Draws are
assumed to lie in the interval of Math.random(), zero inclusive to one
exclusive, as the concrete instances here do. -/
def genEntries (balance : ℚ) (activePositions : List Position)
    (prices volatility : List (String × ℚ)) :
    List String → List ℚ → List (String × DecisionArgs)
  | [], _ => []
  | coin :: rest, rng =>
    if activePositions.any (fun p => p.coin == coin) then
      genEntries balance activePositions prices volatility rest rng
    else
      match priceOf prices coin with
      | none => genEntries balance activePositions prices volatility rest rng
      | some currentPrice =>
        let confidence := rng.headD 0 * 0.4 + 0.6
        let rng₁ := rng.tail
        if confidence > 0.6 then
          let r₂ := rng₁.headD 0
          let rng₂ := rng₁.tail
          if r₂ > 0.7 then
            let r₃ := rng₂.headD 0
            let r₄ := rng₂.tail.headD 0
            let rng₄ := rng₂.tail.tail
            let signal := if r₃ > 0.5 then TradeSignal.long else TradeSignal.short
            let leverage := LEVERAGE_OPTIONS.getD (⌊r₄ * 6⌋).toNat 0
            let baseRisk := 5 + confidence * 10
            let riskUsd := balance * baseRisk / 100
            let sizeUsd := riskUsd * leverage
            let vol := jsNumOr (List.lookup coin volatility) 1
            let stopLossPercent := max 0.3 (vol * 0.5)
            let takeProfitPercent := max 0.5 (vol * 1.5)
            let stopLoss := if signal = TradeSignal.long
              then currentPrice * (1 - stopLossPercent / 100)
              else currentPrice * (1 + stopLossPercent / 100)
            let profitTarget := if signal = TradeSignal.long
              then currentPrice * (1 + takeProfitPercent / 100)
              else currentPrice * (1 - takeProfitPercent / 100)
            let duration := if leverage ≥ 15 then "15min"
              else if leverage ≥ 12 then "30min"
              else if leverage ≥ 10 then "60min" else "2h_to_8h"
            (coin,
              { coin := coin, signal := signal, quantity := some sizeUsd,
                entry_price := some currentPrice,
                profit_target := some profitTarget, stop_loss := some stopLoss,
                leverage := some leverage, confidence := some confidence,
                risk_usd := some riskUsd, size_usd := some sizeUsd,
                expected_duration := some duration })
              :: genEntries balance activePositions prices volatility rest rng₄
          else
            (coin, { coin := coin, signal := .wait })
              :: genEntries balance activePositions prices volatility rest rng₂
        else
          (coin, { coin := coin, signal := .wait })
            :: genEntries balance activePositions prices volatility rest rng₁

/-- generateAgentDecision from src/unnamed/part_013 (the simulated branch
taken when no OpenAI key is configured), as the map from coin to
trade_signal_args.  Exit and hold decisions for existing positions come
first; entry generation over the available markets (the price-map keys, in
order) is skipped entirely when the pre-existing exposure is at or above 70
percent of balance.  The free-text conclusion string is not modelled. -/
def generateAgentDecision (balance : ℚ) (activePositions : List Position)
    (md : MarketData) (rng : List ℚ) : List (String × DecisionArgs) :=
  let totalExposure := activePositions.foldl (fun s p => s + p.size_usd) 0
  let exposurePercent := totalExposure / balance * 100
  let exits := genExitDecisions activePositions md.prices
  if exposurePercent ≥ 70 then exits
  else exits ++ genEntries balance activePositions md.prices md.volatility
    (md.prices.map Prod.fst) rng

/-- Result of executeTrade (src/unnamed/part_013): wait and hold do nothing;
close reports success with the caller locating and closing the position;
long and short open a new position copied from the decision arguments
(optional fields absent from the decision, which cannot occur for
engine-generated entries, default to zero in this model). -/
inductive TradeOutcome where
  | noop
  | closed
  | opened (p : Position)
deriving DecidableEq

/-- executeTrade from src/unnamed/part_013 (paper trading). -/
def executeTrade (decision : DecisionArgs) (marketPrice : ℚ) : TradeOutcome :=
  match decision.signal with
  | .wait => .noop
  | .hold => .noop
  | .close => .closed
  | s => .opened
    { coin := decision.coin,
      signal := if s = TradeSignal.long then Direction.long else Direction.short,
      entry_price := marketPrice,
      profit_target := decision.profit_target.getD 0,
      stop_loss := decision.stop_loss.getD 0,
      leverage := decision.leverage.getD 0,
      size_usd := decision.size_usd.getD 0 }

/-- Evaluation of the leverage table at the index produced by the draw used
in the concrete runs below. -/
theorem leverage_idx5 : (LEVERAGE_OPTIONS[Int.toNat 5]?).getD 0 = 20 := rfl

/-- C4 counterexample: the exposure ceiling is not enforced on the projected
exposure of a proposed open.  An agent with balance 1000 and no open
positions (exposure 0 percent, so the gate passes) receives, for the
concrete random draws shown, an open decision on BTC with notional size 2920
- 292 percent of balance - which executeTrade commits as a new position;
2920 / 1000 exceeds the 70 percent ceiling, so the committed open breaches
the claimed invariant and is not rejected. -/
theorem exposure_gate_not_projected :
    List.lookup "BTC"
        (generateAgentDecision 1000 [] ⟨[("BTC", 100)], [("BTC", 2)]⟩
          [0.9, 0.9, 0.9, 0.99])
      = some
        { coin := "BTC", signal := .long, quantity := some 2920,
          entry_price := some 100, profit_target := some 103,
          stop_loss := some 99, leverage := some 20, confidence := some 0.96,
          risk_usd := some 146, size_usd := some 2920,
          expected_duration := some "15min" }
    ∧ executeTrade
        { coin := "BTC", signal := .long, quantity := some 2920,
          entry_price := some 100, profit_target := some 103,
          stop_loss := some 99, leverage := some 20, confidence := some 0.96,
          risk_usd := some 146, size_usd := some 2920,
          expected_duration := some "15min" } 100
      = .opened (Position.mk "BTC" .long 100 103 99 20 2920)
    ∧ ¬((2920 : ℚ) / 1000 ≤ 70 / 100) :=
  ⟨by norm_num [generateAgentDecision, genExitDecisions, genEntries, priceOf,
      jsNumOr, leverage_idx5, List.lookup, max_def],
   by rfl, by norm_num⟩

/-- Every decision emitted by the exit loop of generateAgentDecision is a
close or a hold for an existing position. -/
theorem genExitDecisions_signals (activePositions : List Position)
    (prices : List (String × ℚ)) :
    ∀ pair ∈ genExitDecisions activePositions prices,
      pair.2.signal = TradeSignal.close ∨ pair.2.signal = TradeSignal.hold := by
  intro pair hm
  unfold genExitDecisions at hm
  rw [List.mem_filterMap] at hm
  obtain ⟨position, _, hf⟩ := hm
  split at hf
  · exact Option.noConfusion hf
  · split at hf
    · cases hf; right; rfl
    · cases hf; left; rfl

/-- C4 (amended): the exposure gate in generateAgentDecision checks only the
agent's pre-existing exposure.  Whenever the open positions' total notional
is already at or above 70 percent of balance, the cycle emits no new open
decision: every emitted decision is a close or a hold for an existing
position.  The projected exposure of an open proposed while below the gate
is not checked, so a committed open may push exposure past the ceiling. -/
theorem exposure_gate_blocks_new_opens (balance : ℚ)
    (activePositions : List Position) (md : MarketData) (rng : List ℚ)
    (h : (activePositions.foldl (fun s p => s + p.size_usd) 0) / balance * 100 ≥ 70) :
    ∀ pair ∈ generateAgentDecision balance activePositions md rng,
      pair.2.signal = TradeSignal.close ∨ pair.2.signal = TradeSignal.hold := by
  intro pair hm
  unfold generateAgentDecision at hm
  rw [if_pos h] at hm
  exact genExitDecisions_signals activePositions md.prices pair hm

/-- Witness for the amended C4 theorem: an agent at exactly 70 percent
exposure (one ETH position of notional 700 on balance 1000) emits only
close or hold decisions for the cycle. -/
theorem exposure_gate_blocks_new_opens_witness :
    (([Position.mk "ETH" .long 100 103 99 10 700].foldl
        (fun s p => s + p.size_usd) 0) / 1000 * 100 ≥ 70)
    ∧ ∀ pair ∈ generateAgentDecision 1000
        [Position.mk "ETH" .long 100 103 99 10 700]
        ⟨[("ETH", 100)], []⟩ [0.9, 0.9, 0.9, 0.99],
      pair.2.signal = TradeSignal.close ∨ pair.2.signal = TradeSignal.hold :=
  ⟨by norm_num,
   exposure_gate_blocks_new_opens 1000
     [Position.mk "ETH" .long 100 103 99 10 700]
     ⟨[("ETH", 100)], []⟩ [0.9, 0.9, 0.9, 0.99] (by norm_num)⟩

/-- State of the trading cron started by startTradingCron
(src/unnamed/part_016): the number of cycle executions currently in flight,
that is, fetches of the process-agents endpoint issued by the interval
handler whose promises have not yet settled. -/
structure CronState where
  inFlight : Nat
deriving DecidableEq

/-- One firing of the setInterval tick handler in startTradingCron: the
handler unconditionally issues a new fetch of the process-agents endpoint.
It consults no guard and awaits nothing beforehand, so a new cycle starts
regardless of whether earlier cycles are still in flight. -/
def cronTick (s : CronState) : CronState :=
  { inFlight := s.inFlight + 1 }

/-- Settlement of one in-flight cycle: its fetch promise resolves or rejects
and the handler's try/catch logs and returns. -/
def cronSettle (s : CronState) : CronState :=
  { inFlight := s.inFlight - 1 }

/-- Events observable by the cron state machine. -/
inductive CronEvent where
  | tick
  | settle
deriving DecidableEq

/-- Step function of the cron state machine. -/
def cronStep (s : CronState) (e : CronEvent) : CronState :=
  match e with
  | .tick => cronTick s
  | .settle => cronSettle s

/-- Running the cron from a state over a sequence of events. -/
def cronRun (s : CronState) (evs : List CronEvent) : CronState :=
  evs.foldl cronStep s

/-- C7 counterexample: the scheduler does not run at most one cycle at a
time.  From the idle state, two ticks with no settlement in between (a cycle
slower than the 30 second interval) leave two cycles in flight, and a tick
arriving while a cycle is running changes the state - the new cycle is
started concurrently, not skipped. -/
theorem cron_overlapping_cycles :
    (cronRun { inFlight := 0 } [CronEvent.tick, CronEvent.tick]).inFlight = 2
    ∧ ¬((cronRun { inFlight := 0 } [CronEvent.tick, CronEvent.tick]).inFlight ≤ 1)
    ∧ cronTick { inFlight := 1 } ≠ { inFlight := 1 } :=
  ⟨by decide, by decide, by decide⟩

/-- C7 (amended): the interval handler of startTradingCron starts a new
cycle unconditionally on every tick; an unfinished previous cycle is neither
awaited nor causes the tick to be skipped or queued, so n ticks without a
settlement leave n cycles in flight concurrently. -/
theorem cron_tick_always_starts_cycle :
    (∀ s : CronState, cronTick s = { inFlight := s.inFlight + 1 })
    ∧ ∀ n : Nat,
        (cronRun { inFlight := 0 } (List.replicate n CronEvent.tick)).inFlight = n := by
  constructor
  · intro s; rfl
  · have key : ∀ (n : Nat) (s : CronState),
        (cronRun s (List.replicate n CronEvent.tick)).inFlight = s.inFlight + n := by
      intro n
      induction n with
      | zero => intro s; simp [cronRun]
      | succ k ih =>
        intro s
        rw [List.replicate_succ]
        show (cronRun (cronStep s CronEvent.tick) (List.replicate k CronEvent.tick)).inFlight
          = s.inFlight + (k + 1)
        rw [ih]
        show s.inFlight + 1 + k = s.inFlight + (k + 1)
        omega
    intro n
    rw [key n { inFlight := 0 }]
    show 0 + n = n
    omega

/-- The decision object parsed from a Gemini reply
(src/lib/gemini-service.ts): every schema field, each possibly absent from
the parsed JSON.  The free-text reason and the textual timestamp are carried
as strings. -/
structure RawDecision where
  action : Option String := none
  orderType : Option String := none
  symbol : Option String := none
  side : Option String := none
  size : Option ℚ := none
  sizePct : Option ℚ := none
  price : Option ℚ := none
  leverage : Option ℚ := none
  takeProfit : Option ℚ := none
  stopLoss : Option ℚ := none
  clientOrderId : Option String := none
  reduceOnly : Option Bool := none
  postOnly : Option Bool := none
  timeInForce : Option String := none
  simulate : Option Bool := none
  confidence : Option ℚ := none
  reason : Option String := none
  timestamp : Option String := none
deriving DecidableEq

/-- The JavaScript or-else idiom on an optional string: null, undefined and
the empty string are falsy and give the default. -/
def jsStrOr (v : Option String) (d : String) : String :=
  match v with
  | none => d
  | some s => if s = "" then d else s

/-- The value or-else null idiom on an optional string. -/
def jsStrOrNull (v : Option String) : Option String :=
  match v with
  | none => none
  | some s => if s = "" then none else some s

/-- The value or-else null idiom on an optional number. -/
def jsNumOrNull (v : Option ℚ) : Option ℚ :=
  match v with
  | none => none
  | some x => if x = 0 then none else some x

/-- The normalized decision record returned by
generateGeminiTradingDecision. -/
structure GeminiDecision where
  action : String
  orderType : String
  symbol : Option String
  side : Option String
  size : Option ℚ
  sizePct : Option ℚ
  price : Option ℚ
  leverage : Option ℚ
  takeProfit : Option ℚ
  stopLoss : Option ℚ
  clientOrderId : Option String
  reduceOnly : Bool
  postOnly : Bool
  timeInForce : Option String
  simulate : Bool
  confidence : ℚ
  reason : String
  timestamp : String
deriving DecidableEq

/-- The success path of generateGeminiTradingDecision
(src/lib/gemini-service.ts): a reply that parsed as JSON is normalized field
by field with or-else defaults - the action falls back to the string none
only when falsy, the confidence falls back to 0.5 (also when it is 0, zero
being falsy), the undefined-checked booleans default explicitly.  No
whole-schema validation is applied. -/
def normalizeGeminiReply (d : RawDecision) (now : String) : GeminiDecision :=
  { action := jsStrOr d.action "none"
    orderType := jsStrOr d.orderType "market"
    symbol := jsStrOrNull d.symbol
    side := jsStrOrNull d.side
    size := jsNumOrNull d.size
    sizePct := jsNumOrNull d.sizePct
    price := jsNumOrNull d.price
    leverage := jsNumOrNull d.leverage
    takeProfit := jsNumOrNull d.takeProfit
    stopLoss := jsNumOrNull d.stopLoss
    clientOrderId := jsStrOrNull d.clientOrderId
    reduceOnly := d.reduceOnly.getD false
    postOnly := d.postOnly.getD false
    timeInForce := jsStrOrNull d.timeInForce
    simulate := d.simulate.getD true
    confidence := jsNumOr d.confidence 0.5
    reason := jsStrOr d.reason "AI decision error"
    timestamp := jsStrOr d.timestamp now }

/-- The catch path of generateGeminiTradingDecision: the fully populated
none-action decision with confidence zero. -/
def geminiFallbackDecision (now : String) : GeminiDecision :=
  { action := "none", orderType := "market", symbol := none, side := none,
    size := none, sizePct := none, price := none, leverage := none,
    takeProfit := none, stopLoss := none, clientOrderId := none,
    reduceOnly := false, postOnly := false, timeInForce := none,
    simulate := true, confidence := 0, reason := "AI error occurred",
    timestamp := now }

/-- generateGeminiTradingDecision (src/lib/gemini-service.ts) as a function
of the collaborator interaction's outcome: an error value stands for every
failure path of the try block (no response text, unparseable JSON, a thrown
or timed-out API call), all handled by the catch; a parsed reply is
normalized field by field.  The now argument is the ISO timestamp string of
the clock read in the handler. -/
def generateGeminiTradingDecision (reply : Except Unit RawDecision)
    (now : String) : GeminiDecision :=
  match reply with
  | .error _ => geminiFallbackDecision now
  | .ok d => normalizeGeminiReply d now

/-- The decision payload returned by generateAITradingDecision
(src/lib/openai-service.ts): a decisions map of per-coin trade_signal_args
and a conclusion string. -/
structure OpenAIDecisionPayload where
  decisions : List (String × DecisionArgs)
  conclusion : String
deriving DecidableEq

/-- generateAITradingDecision (src/lib/openai-service.ts): a failure of the
API call or of JSON parsing falls back to an empty decisions map with a
fixed conclusion; a parsed reply is returned verbatim, with no schema
validation. -/
def generateAITradingDecision (reply : Except Unit OpenAIDecisionPayload) :
    OpenAIDecisionPayload :=
  match reply with
  | .error _ => { decisions := [], conclusion := "AI decision generation failed" }
  | .ok d => d

/-- C8 counterexample: a reply that parses as JSON but fails the schema (the
schema requires every key; this reply carries only an action) is not mapped
to the safe default.  The Gemini adapter propagates the reply's action and
defaults the missing confidence to 0.5, not 0, so the returned decision is
an open with confidence 0.5 rather than the claimed none with confidence
0. -/
theorem gemini_schema_invalid_reply_propagates :
    (generateGeminiTradingDecision (.ok { action := some "open" }) "T").action
      = "open"
    ∧ (generateGeminiTradingDecision (.ok { action := some "open" }) "T").confidence
      = 0.5
    ∧ ("open" : String) ≠ "none"
    ∧ ¬((0.5 : ℚ) = 0) :=
  ⟨rfl, rfl, by decide, by norm_num⟩

/-- C8 (amended): replies whose handling throws, times out, fails to produce
text or fails JSON parsing are mapped by the Gemini adapter to the safe
default none-action decision with confidence zero, and the cycle does not
crash; a reply that parses, however, is only normalized field by field (its
action is preserved whenever truthy, a missing or zero confidence becomes
0.5), and the OpenAI adapter's failure fallback is an empty decisions map
rather than a none-action decision. -/
theorem decision_error_paths_safe_default (now : String) (d : RawDecision)
    (hd : d.action = none) :
    (generateGeminiTradingDecision (.error ()) now).action = "none"
    ∧ (generateGeminiTradingDecision (.error ()) now).confidence = 0
    ∧ generateGeminiTradingDecision (.error ()) now = geminiFallbackDecision now
    ∧ (generateGeminiTradingDecision (.ok d) now).action = "none"
    ∧ generateAITradingDecision (.error ())
        = { decisions := [], conclusion := "AI decision generation failed" } := by
  refine ⟨rfl, rfl, rfl, ?_, rfl⟩
  simp [generateGeminiTradingDecision, normalizeGeminiReply, jsStrOr, hd]

/-- Witness for the amended C8 theorem at the empty parsed reply. -/
theorem decision_error_paths_safe_default_witness :
    (RawDecision.mk none none none none none none none none none none none
        none none none none none none none).action = none
    ∧ ((generateGeminiTradingDecision (.error ()) "T").action = "none"
      ∧ (generateGeminiTradingDecision (.error ()) "T").confidence = 0
      ∧ generateGeminiTradingDecision (.error ()) "T" = geminiFallbackDecision "T"
      ∧ (generateGeminiTradingDecision
          (.ok (RawDecision.mk none none none none none none none none none
            none none none none none none none none none)) "T").action = "none"
      ∧ generateAITradingDecision (.error ())
          = { decisions := [], conclusion := "AI decision generation failed" }) :=
  ⟨rfl,
   decision_error_paths_safe_default "T"
     (RawDecision.mk none none none none none none none none none none none
       none none none none none none none) rfl⟩

/-- An Aster balance entry as returned by the balance endpoint
(src/lib/aster-real-trading.ts); balance carries the parsed numeric wallet
balance. -/
structure AsterBalance where
  asset : String
  balance : ℚ
deriving DecidableEq

/-- The mutable agent fields touched by syncBalanceFromAster. -/
structure LiveAgentState where
  balance : ℚ
  pnl : ℚ
  pnlAbsolute : ℚ
deriving DecidableEq

/-- getAsterAccountBalance (src/lib/aster-real-trading.ts) as a function of
the HTTP outcome: a transport failure or non-2xx response is a thrown error;
on a parsed body the USDT entry is selected, a body without a USDT entry is
a thrown error, and otherwise the wallet balance number is returned.  The
function never returns a value on failure, in particular never zero. -/
def getAsterAccountBalance (resp : Except String (List AsterBalance)) :
    Except String ℚ :=
  match resp with
  | .error e => .error e
  | .ok balances =>
    match balances.find? (fun b => b.asset == "USDT") with
    | none => .error "USDT balance not found in account"
    | some b => .ok b.balance

/-- syncBalanceFromAster (src/lib/aster-real-trading.ts): on a successful
balance query the agent's balance is overwritten with the exchange value and
the PnL fields are recomputed against the initial balance (1000 by default
at the call sites); any error thrown inside the try block is caught before
the first mutation, logged and swallowed - the function never rethrows and
leaves the agent untouched. -/
def syncBalanceFromAster (agent : LiveAgentState)
    (resp : Except String (List AsterBalance)) (initialBalance : ℚ) :
    LiveAgentState :=
  match getAsterAccountBalance resp with
  | .error _ => agent
  | .ok realBalance =>
    { balance := realBalance
      pnlAbsolute := realBalance - initialBalance
      pnl := (realBalance - initialBalance) / initialBalance * 100 }

/-- C9: on every failure of the live-mode balance query the reconciler
leaves the agent's balance, pnl and pnlAbsolute unchanged - the last known
values are retained, nothing is zeroed, and no error escapes the
reconciler (it is a total function into the agent state). -/
theorem syncBalanceFromAster_failure_keeps_state (agent : LiveAgentState)
    (resp : Except String (List AsterBalance)) (initialBalance : ℚ)
    (e : String) (hfail : getAsterAccountBalance resp = .error e) :
    syncBalanceFromAster agent resp initialBalance = agent
    ∧ (syncBalanceFromAster agent resp initialBalance).balance = agent.balance
    ∧ (syncBalanceFromAster agent resp initialBalance).pnl = agent.pnl
    ∧ (syncBalanceFromAster agent resp initialBalance).pnlAbsolute
        = agent.pnlAbsolute := by
  unfold syncBalanceFromAster
  rw [hfail]
  exact ⟨rfl, rfl, rfl, rfl⟩

/-- Witness for C9: a body without a USDT entry fails the query and leaves a
concrete agent state untouched. -/
theorem syncBalanceFromAster_failure_keeps_state_witness :
    getAsterAccountBalance (.ok [AsterBalance.mk "BNB" 2])
      = .error "USDT balance not found in account"
    ∧ (syncBalanceFromAster (LiveAgentState.mk 123 5 50)
          (.ok [AsterBalance.mk "BNB" 2]) 1000 = LiveAgentState.mk 123 5 50
      ∧ (syncBalanceFromAster (LiveAgentState.mk 123 5 50)
          (.ok [AsterBalance.mk "BNB" 2]) 1000).balance
          = (LiveAgentState.mk 123 5 50).balance
      ∧ (syncBalanceFromAster (LiveAgentState.mk 123 5 50)
          (.ok [AsterBalance.mk "BNB" 2]) 1000).pnl
          = (LiveAgentState.mk 123 5 50).pnl
      ∧ (syncBalanceFromAster (LiveAgentState.mk 123 5 50)
          (.ok [AsterBalance.mk "BNB" 2]) 1000).pnlAbsolute
          = (LiveAgentState.mk 123 5 50).pnlAbsolute) :=
  ⟨rfl,
   syncBalanceFromAster_failure_keeps_state (LiveAgentState.mk 123 5 50)
     (.ok [AsterBalance.mk "BNB" 2]) 1000
     "USDT balance not found in account" rfl⟩

/-- Agent fields read by the balance-snapshot POST handler
(src/unnamed/part_005); the numeric fields are optional to model documents
missing them, which the handler guards with or-else defaults. -/
structure AgentRow where
  id : String
  name : String
  balance : Option ℚ
  pnl : Option ℚ
  pnlAbsolute : Option ℚ
deriving DecidableEq

/-- A stored BalanceSnapshot document. -/
structure BalanceSnapshotRow where
  timestamp : Int
  agentId : String
  agentName : String
  balance : ℚ
  pnl : ℚ
  pnlAbsolute : ℚ
deriving DecidableEq

/-- The snapshot document the POST handler creates for one agent at the
capture time (balance defaulting to 1000, the PnL fields to 0, through
JavaScript falsiness). -/
def mkSnapshot (now : Int) (a : AgentRow) : BalanceSnapshotRow :=
  { timestamp := now, agentId := a.id, agentName := a.name,
    balance := jsNumOr a.balance 1000, pnl := jsNumOr a.pnl 0,
    pnlAbsolute := jsNumOr a.pnlAbsolute 0 }

/-- The POST handler of /api/balance-snapshots (src/unnamed/part_005) as a
transformation of the snapshot store: with no agents it returns early and
touches nothing; otherwise it creates one snapshot per agent, all stamped
with the single Date.now() reading, and then deletes every stored snapshot
whose timestamp is older than 24 hours before that reading. -/
def balanceSnapshotsPost (agents : List AgentRow)
    (store : List BalanceSnapshotRow) (now : Int) : List BalanceSnapshotRow :=
  if agents = [] then store
  else
    let afterCreate := store ++ agents.map (mkSnapshot now)
    let cutoff := now - 24 * 60 * 60 * 1000
    afterCreate.filter (fun s => !decide (s.timestamp < cutoff))

/-- C10 counterexample: an invocation with no agents does not prune.  With
an empty agent list and a store holding a snapshot far older than 24 hours,
the handler returns early and the stale snapshot survives, so it is not the
case that every invocation deletes every stored snapshot older than 24
hours. -/
theorem balance_snapshots_post_no_agents_no_prune :
    balanceSnapshotsPost [] [BalanceSnapshotRow.mk 0 "A" "Agent" 1000 0 0]
        200000000
      = [BalanceSnapshotRow.mk 0 "A" "Agent" 1000 0 0]
    ∧ (0 : Int) < 200000000 - 24 * 60 * 60 * 1000 :=
  ⟨rfl, by decide⟩

/-- C10 (amended): every invocation with at least one existing agent creates
one snapshot per agent, all sharing the single capture timestamp, and then
prunes every stored snapshot older than 24 hours, so the store afterwards is
the filtered old store followed by the new snapshots; an invocation with no
agents is a no-op that neither creates nor prunes. -/
theorem balance_snapshots_post_snapshot_and_prune (agents : List AgentRow)
    (store : List BalanceSnapshotRow) (now : Int) (h : agents ≠ []) :
    balanceSnapshotsPost agents store now
      = store.filter (fun s => !decide (s.timestamp < now - 24 * 60 * 60 * 1000))
        ++ agents.map (mkSnapshot now)
    ∧ (∀ a ∈ agents, (mkSnapshot now a).timestamp = now)
    ∧ (agents.map (mkSnapshot now)).length = agents.length
    ∧ ∀ (store₀ : List BalanceSnapshotRow) (t : Int),
        balanceSnapshotsPost [] store₀ t = store₀ := by
  refine ⟨?_, ?_, by simp, fun store₀ t => rfl⟩
  · unfold balanceSnapshotsPost
    rw [if_neg h, List.filter_append]
    have hkeep : (agents.map (mkSnapshot now)).filter
        (fun s => !decide (s.timestamp < now - 24 * 60 * 60 * 1000))
        = agents.map (mkSnapshot now) := by
      rw [List.filter_eq_self]
      intro s hs
      rw [List.mem_map] at hs
      obtain ⟨a, _, rfl⟩ := hs
      simp only [mkSnapshot, Bool.not_eq_true']
      rw [decide_eq_false_iff_not]
      omega
    rw [hkeep]
  · intro a _
    rfl

/-- Witness for the amended C10 theorem: one agent, one stale stored
snapshot, a concrete capture time. -/
theorem balance_snapshots_post_snapshot_and_prune_witness :
    ([AgentRow.mk "A" "Agent" (some 1234) (some 2) (some 234)] : List AgentRow) ≠ []
    ∧ (balanceSnapshotsPost [AgentRow.mk "A" "Agent" (some 1234) (some 2) (some 234)]
          [BalanceSnapshotRow.mk 0 "B" "Old" 1000 0 0] 200000000
        = [BalanceSnapshotRow.mk 0 "B" "Old" 1000 0 0].filter
            (fun s => !decide (s.timestamp < 200000000 - 24 * 60 * 60 * 1000))
          ++ [AgentRow.mk "A" "Agent" (some 1234) (some 2) (some 234)].map
              (mkSnapshot 200000000)
      ∧ (∀ a ∈ [AgentRow.mk "A" "Agent" (some 1234) (some 2) (some 234)],
          (mkSnapshot 200000000 a).timestamp = 200000000)
      ∧ ([AgentRow.mk "A" "Agent" (some 1234) (some 2) (some 234)].map
          (mkSnapshot 200000000)).length
          = [AgentRow.mk "A" "Agent" (some 1234) (some 2) (some 234)].length
      ∧ ∀ (store₀ : List BalanceSnapshotRow) (t : Int),
          balanceSnapshotsPost [] store₀ t = store₀) :=
  ⟨List.cons_ne_nil _ _,
   balance_snapshots_post_snapshot_and_prune
     [AgentRow.mk "A" "Agent" (some 1234) (some 2) (some 234)]
     [BalanceSnapshotRow.mk 0 "B" "Old" 1000 0 0] 200000000
     (List.cons_ne_nil _ _)⟩
